import Mathlib

/-!
Verification development for the ride-hailing dispatch backend
(gocomet-daw-assignment). The JavaScript services are shallowly embedded:
SQL tables become lists of records, the Redis cache / geo index / lock
store become explicit fields of a state record, and each service function
becomes a pure state-passing function returning `Except Err`.

Money and coordinates are modelled with rationals; `Math.round(x*100)/100`
becomes `round2` below (`round q = ⌊q + 1/2⌋`, matching JS `Math.round`
for the values that occur).  Randomness (mock PSP success, uuids, clock)
is made explicit: an oracle list of booleans for card outcomes, a counter
for fresh ids, and a fixed `now`.
-/

namespace RideHailing

/-- Ride lifecycle states, from `rideService.js` (`STATUS_TRANSITIONS`). -/
inductive RideStatus where
  | REQUESTED
  | MATCHING
  | DRIVER_ASSIGNED
  | DRIVER_EN_ROUTE
  | DRIVER_ARRIVED
  | IN_PROGRESS
  | COMPLETED
  | CANCELLED
deriving DecidableEq, Repr

/-- Driver availability states (`drivers.status`). -/
inductive DriverStatus where
  | offline
  | online
  | busy
deriving DecidableEq, Repr

/-- Ride-offer states (`ride_offers.status`). -/
inductive OfferStatus where
  | pending
  | accepted
  | declined
  | expired
  | cancelled
deriving DecidableEq, Repr

/-- Error taxonomy from `utils/errors.js`, restricted to the constructors
the embedded services raise. -/
inductive Err where
  | NotFound (resource : String)
  | Conflict (msg : String)
  | InvalidStateTransition (currentState targetState entity : String)
  | LockAcquisition (resource : String)
deriving DecidableEq, Repr

def RideStatus.name : RideStatus → String
  | .REQUESTED => "REQUESTED"
  | .MATCHING => "MATCHING"
  | .DRIVER_ASSIGNED => "DRIVER_ASSIGNED"
  | .DRIVER_EN_ROUTE => "DRIVER_EN_ROUTE"
  | .DRIVER_ARRIVED => "DRIVER_ARRIVED"
  | .IN_PROGRESS => "IN_PROGRESS"
  | .COMPLETED => "COMPLETED"
  | .CANCELLED => "CANCELLED"

/-! ## Fare computation (`tripService.js`, `rideService.js`) -/

/-- `Math.round(x * 100) / 100` from the source, over rationals.
JS `Math.round` rounds half toward positive infinity, which is
Mathlib's `round` (`⌊x + 1/2⌋`). -/
def round2 (x : ℚ) : ℚ := (round (x * 100) : ℤ) / 100

/-- One row of `FARE_CONFIG` in `tripService.js`. -/
structure FareConfig where
  baseFare : ℚ
  perKm : ℚ
  perMin : ℚ
deriving DecidableEq, Repr

/-- `FARE_CONFIG` object lookup: defined keys economy / premium / xl. -/
def FARE_CONFIG (tier : String) : Option FareConfig :=
  if tier = "economy" then some ⟨50, 12, 3/2⟩
  else if tier = "premium" then some ⟨100, 18, 5/2⟩
  else if tier = "xl" then some ⟨150, 22, 3⟩
  else none

/-- `FARE_CONFIG[tier] || FARE_CONFIG.economy`: a `tier` of `none` models the
JS `undefined` argument; the `||` fallback fires on `undefined` lookup
results (the configs themselves are truthy objects). -/
def fareConfigFor (tier : Option String) : FareConfig :=
  match tier with
  | some t => (FARE_CONFIG t).getD ⟨50, 12, 3/2⟩
  | none => ⟨50, 12, 3/2⟩

/-- Fare breakdown returned by `calculateFare` in `tripService.js`. -/
structure FareBreakdown where
  baseFare : ℚ
  distanceFare : ℚ
  timeFare : ℚ
  surgeFare : ℚ
  surgeMultiplier : ℚ
  taxes : ℚ
  subtotal : ℚ
  total : ℚ
  currency : String
deriving DecidableEq, Repr

/-- `calculateFare(tier, distanceKm, durationMins, surgeMultiplier)` from
`tripService.js`; `0.05` is `5/100`. -/
def calculateFare (tier : Option String) (distanceKm durationMins surgeMultiplier : ℚ) :
    FareBreakdown :=
  let config := fareConfigFor tier
  let baseFare := config.baseFare
  let distanceFare := round2 (distanceKm * config.perKm)
  let timeFare := round2 (durationMins * config.perMin)
  let subtotal := baseFare + distanceFare + timeFare
  let surgeFare := if surgeMultiplier > 1 then round2 (subtotal * (surgeMultiplier - 1)) else 0
  let taxes := round2 ((subtotal + surgeFare) * (5/100))
  let total := round2 (subtotal + surgeFare + taxes)
  { baseFare := baseFare
    distanceFare := distanceFare
    timeFare := timeFare
    surgeFare := surgeFare
    surgeMultiplier := surgeMultiplier
    taxes := taxes
    subtotal := subtotal
    total := total
    currency := "INR" }

/-- `baseFares` object in `calculateEstimatedFare` (`rideService.js`). -/
def baseFares (tier : String) : Option ℚ :=
  if tier = "economy" then some 50
  else if tier = "premium" then some 100
  else if tier = "xl" then some 150
  else none

/-- `perKmRates` object in `calculateEstimatedFare` (`rideService.js`). -/
def perKmRates (tier : String) : Option ℚ :=
  if tier = "economy" then some 12
  else if tier = "premium" then some 18
  else if tier = "xl" then some 22
  else none

/-- `calculateEstimatedFare(distanceKm, tier)` from `rideService.js`:
`Math.round(base + distanceKm * perKm)` with `baseFares[tier] || baseFares.economy`
(all defined rates are nonzero, so `||` is exactly the undefined-fallback). -/
def calculateEstimatedFare (distanceKm : ℚ) (tier : Option String) : ℤ :=
  let base := match tier with
    | some t => (baseFares t).getD 50
    | none => 50
  let perKm := match tier with
    | some t => (perKmRates t).getD 12
    | none => 12
  round (base + distanceKm * perKm)

/-! ## Data model (rows of the SQL tables, plus Redis-held state) -/

/-- A row of `rides` (fields the embedded services read or write). -/
structure Ride where
  id : Nat
  riderId : Nat
  driverId : Option Nat
  status : RideStatus
  version : Nat
  tier : Option String
  surgeMultiplier : ℚ
  estimatedDistanceKm : ℚ
  cancelledAt : Option Nat
  cancellationReason : Option String
deriving DecidableEq, Repr

/-- A row of `drivers`. -/
structure Driver where
  id : Nat
  status : DriverStatus
  vehicleType : String
  rating : ℚ
  acceptanceRate : ℚ
  totalRides : Nat
deriving DecidableEq, Repr

/-- A row of `ride_offers` (id is the only unique key in the schema). -/
structure Offer where
  id : Nat
  rideId : Nat
  driverId : Nat
  status : OfferStatus
  expiresAt : Nat
deriving DecidableEq, Repr

/-- A row of `trips`; the fare columns are grouped into `fare`. -/
structure Trip where
  id : Nat
  rideId : Nat
  status : String
  startedAt : Nat
  endedAt : Option Nat
  actualDistanceKm : Option ℚ
  actualDurationMins : Option ℚ
  routePolyline : Option String
  fare : Option FareBreakdown
deriving DecidableEq, Repr

/-- One member of a Redis `drivers:geo:<tier>` set. -/
structure GeoEntry where
  tier : String
  driverId : Nat
  lng : ℚ
  lat : ℚ
deriving DecidableEq, Repr

/-- A row of `driver_locations`; the list is kept newest-first, so
`find?` retrieves the `ORDER BY recorded_at DESC LIMIT 1` row. -/
structure DriverLocation where
  driverId : Nat
  latitude : ℚ
  longitude : ℚ
deriving DecidableEq, Repr

/-- The whole backend state touched by the ride/matching/trip services:
SQL tables, the Redis geo index, latest locations, the set of motion
simulators keyed by driver id, held Redlock resources, the clock and a
fresh-id counter standing in for uuid generation. -/
structure World where
  rides : List Ride
  drivers : List Driver
  offers : List Offer
  trips : List Trip
  geoIndex : List GeoEntry
  driverLocations : List DriverLocation
  simulators : List Nat
  locks : List String
  now : Nat
  nextId : Nat
deriving DecidableEq, Repr

/-- `GEOADD drivers:geo:<tier>` — upsert of the member's coordinates
(`addDriverLocation` in `config/redis.js`). -/
def addDriverLocation (g : List GeoEntry) (tier : String) (driverId : Nat) (lng lat : ℚ) :
    List GeoEntry :=
  if g.any (fun e => e.tier == tier && e.driverId == driverId) then
    g.map (fun e => if e.tier == tier && e.driverId == driverId then ⟨tier, driverId, lng, lat⟩ else e)
  else ⟨tier, driverId, lng, lat⟩ :: g

/-- `ZREM drivers:geo:<tier> driverId` (`removeDriverLocation` in `config/redis.js`). -/
def removeDriverLocation (g : List GeoEntry) (tier : String) (driverId : Nat) : List GeoEntry :=
  g.filter (fun e => !(e.tier == tier && e.driverId == driverId))

/-- The `STATUS_TRANSITIONS` map of `rideService.js`. -/
def STATUS_TRANSITIONS : RideStatus → List RideStatus
  | .REQUESTED => [.MATCHING, .CANCELLED]
  | .MATCHING => [.DRIVER_ASSIGNED, .CANCELLED]
  | .DRIVER_ASSIGNED => [.DRIVER_EN_ROUTE, .CANCELLED]
  | .DRIVER_EN_ROUTE => [.DRIVER_ARRIVED, .CANCELLED]
  | .DRIVER_ARRIVED => [.IN_PROGRESS, .CANCELLED]
  | .IN_PROGRESS => [.COMPLETED]
  | .COMPLETED => []
  | .CANCELLED => []

/-! ## Ride service (`rideService.js`, embedded from `docs/SETUP.md`) -/

/-- `cancelRide(id, reason)`: single SQL update guarded by
`status NOT IN ('COMPLETED', 'CANCELLED')`; zero updated rows raise
`ConflictError`.  When the cancelled ride carries a driver, that driver
is set back to `online`.  Nothing else is written: the geo index and the
simulator registry are untouched by this function. -/
def cancelRide (w : World) (id : Nat) (reason : Option String) : Except Err (Ride × World) :=
  let canCancel : Ride → Bool := fun r =>
    r.id == id && !(r.status == RideStatus.COMPLETED || r.status == RideStatus.CANCELLED)
  let upd : Ride → Ride := fun r =>
    { r with status := RideStatus.CANCELLED, cancelledAt := some w.now,
             cancellationReason := reason, version := r.version + 1 }
  match w.rides.find? canCancel with
  | none => .error (.Conflict "Ride cannot be cancelled")
  | some r0 =>
    let ride := upd r0
    let w1 := { w with rides := w.rides.map (fun r => if canCancel r then upd r else r) }
    match ride.driverId with
    | some d =>
      .ok (ride, { w1 with drivers := w1.drivers.map (fun dr =>
        if dr.id == d then { dr with status := DriverStatus.online } else dr) })
    | none => .ok (ride, w1)

/-- `updateRideStatus(id, newStatus, expectedVersion)`: guard against the
`STATUS_TRANSITIONS` table, then update with `version = version + 1`,
optionally fenced by `AND version = expectedVersion` (mismatch raises
`ConflictError`). -/
def updateRideStatus (w : World) (id : Nat) (newStatus : RideStatus)
    (expectedVersion : Option Nat) : Except Err (Ride × World) :=
  match w.rides.find? (fun r => r.id == id) with
  | none => .error (.NotFound "Ride")
  | some current =>
    if newStatus ∈ STATUS_TRANSITIONS current.status then
      let bump : Ride → Ride := fun r => { r with status := newStatus, version := r.version + 1 }
      match expectedVersion with
      | some v =>
        if current.version == v then
          .ok (bump current, { w with rides := w.rides.map (fun r =>
            if r.id == id && r.version == v then bump r else r) })
        else .error (.Conflict "Ride was modified by another request. Please retry.")
      | none =>
        .ok (bump current, { w with rides := w.rides.map (fun r =>
          if r.id == id then bump r else r) })
    else .error (.InvalidStateTransition current.status.name newStatus.name "Ride")

/-! ## Trip service (`tripService.js`) -/

/-- `updateRideStatusForTrip(rideId, newStatus)`: only the TARGET status is
validated (`DRIVER_EN_ROUTE` or `DRIVER_ARRIVED`); the current status of
the ride is not read at all, so the update succeeds from any state. -/
def updateRideStatusForTrip (w : World) (rideId : Nat) (newStatus : RideStatus) :
    Except Err (Ride × World) :=
  if newStatus == RideStatus.DRIVER_EN_ROUTE || newStatus == RideStatus.DRIVER_ARRIVED then
    match w.rides.find? (fun r => r.id == rideId) with
    | none => .error (.NotFound "Ride")
    | some current =>
      let bump : Ride → Ride := fun r => { r with status := newStatus, version := r.version + 1 }
      .ok (bump current, { w with rides := w.rides.map (fun r =>
        if r.id == rideId then bump r else r) })
  else .error (.Conflict ("Invalid status transition: " ++ newStatus.name))

/-- `startTrip(rideId)`: requires `ride.status = DRIVER_ARRIVED`; inserts a
trip in status `IN_PROGRESS` started now, and moves the ride to
`IN_PROGRESS` with `version + 1`.  (`switchToTripPhase` re-keys the
driver's simulator task to the dropoff leg; membership of the simulator
registry is unchanged.) -/
def startTrip (w : World) (rideId : Nat) : Except Err (Nat × World) :=
  match w.rides.find? (fun r => r.id == rideId) with
  | none => .error (.NotFound "Ride")
  | some ride =>
    if ride.status == RideStatus.DRIVER_ARRIVED then
      let tripId := w.nextId
      let newTrip : Trip :=
        { id := tripId, rideId := rideId, status := "IN_PROGRESS", startedAt := w.now,
          endedAt := none, actualDistanceKm := none, actualDurationMins := none,
          routePolyline := none, fare := none }
      let bump : Ride → Ride := fun r =>
        { r with status := RideStatus.IN_PROGRESS, version := r.version + 1 }
      .ok (tripId, { w with trips := w.trips ++ [newTrip],
                            rides := w.rides.map (fun r => if r.id == rideId then bump r else r),
                            nextId := w.nextId + 1 })
    else .error (.InvalidStateTransition ride.status.name "IN_PROGRESS" "Ride")

/-- JS `a || b` on an optional numeric input: `undefined` and `0` are both
falsy, so either selects the fallback. -/
def jsOrQ (v : Option ℚ) (fallback : ℚ) : ℚ :=
  match v with
  | some x => if x = 0 then fallback else x
  | none => fallback

/-- `endTrip(tripId, tripData)`: requires `trip.status = 'IN_PROGRESS'`.
Distance falls back through `actual_distance_km || estimated_distance_km || 5`,
duration through `actual_duration_mins || ceil(elapsed ms / 60000)` (JS `||`,
so a 0 input falls through).  Completes the trip with the fare breakdown,
completes the ride with `version + 1`, puts the driver back `online` with
`total_rides + 1`, re-adds the driver to the geo index when a last location
exists, and stops that driver's simulator (`stopDriverSimulation`, modelled
as removal from the registry). -/
def endTrip (w : World) (tripId : Nat) (actualDistanceKm actualDurationMins : Option ℚ)
    (routePolyline : Option String) : Except Err (FareBreakdown × World) :=
  match w.trips.find? (fun t => t.id == tripId) with
  | none => .error (.NotFound "Trip")
  | some trip =>
    if trip.status == "IN_PROGRESS" then
      match w.rides.find? (fun r => r.id == trip.rideId) with
      | none => .error (.NotFound "Ride")
      | some ride =>
        let distance := jsOrQ actualDistanceKm
          (if ride.estimatedDistanceKm = 0 then 5 else ride.estimatedDistanceKm)
        let fallbackDuration : ℚ := (((w.now - trip.startedAt + 59999) / 60000 : Nat) : ℚ)
        let duration := jsOrQ actualDurationMins fallbackDuration
        let fareBreakdown := calculateFare ride.tier distance duration ride.surgeMultiplier
        let trips2 := w.trips.map (fun t => if t.id == tripId then
          { t with endedAt := some w.now, actualDistanceKm := some distance,
                   actualDurationMins := some duration, routePolyline := routePolyline,
                   fare := some fareBreakdown, status := "COMPLETED" } else t)
        let rides2 := w.rides.map (fun r => if r.id == trip.rideId then
          { r with status := RideStatus.COMPLETED, version := r.version + 1 } else r)
        let drivers2 := match ride.driverId with
          | some d => w.drivers.map (fun dr => if dr.id == d then
              { dr with status := DriverStatus.online, totalRides := dr.totalRides + 1 } else dr)
          | none => w.drivers
        let geo2 := match ride.driverId with
          | some d =>
            match w.drivers.find? (fun dr => dr.id == d),
                  w.driverLocations.find? (fun l => l.driverId == d) with
            | some dr, some loc => addDriverLocation w.geoIndex dr.vehicleType d loc.longitude loc.latitude
            | _, _ => w.geoIndex
          | none => w.geoIndex
        let sims2 := match ride.driverId with
          | some d => w.simulators.filter (fun x => !(x == d))
          | none => w.simulators
        .ok (fareBreakdown, { w with trips := trips2, rides := rides2, drivers := drivers2,
                                     geoIndex := geo2, simulators := sims2 })
    else .error (.InvalidStateTransition trip.status "COMPLETED" "Trip")

/-! ## Matching service (`matchingService.js`) -/

/-- `acceptRide(rideId, driverId)`: Redlock on `ride:<rideId>` (held lock
fails the request), then in one transaction: ride must be `MATCHING`
(otherwise Conflict when a driver is already set, else
InvalidStateTransition), driver must exist `online`, a pending offer for
the pair must exist; then the ride is assigned (`version + 1`), the driver
set `busy`, the pair's offer accepted, every other pending offer for the
ride cancelled, the driver removed from the geo index, and the driver's
motion simulator started (`startDriverSimulation`, modelled from the spec
as registry insertion keyed by driver).  Acquire plus the final release
leave the lock store unchanged. -/
def acceptRide (w : World) (rideId driverId : Nat) : Except Err (Ride × World) :=
  if ("ride:" ++ toString rideId) ∈ w.locks then
    .error (.LockAcquisition ("ride " ++ toString rideId))
  else
    match w.rides.find? (fun r => r.id == rideId) with
    | none => .error (.NotFound "Ride")
    | some ride =>
      if ride.status == RideStatus.MATCHING then
        match w.drivers.find? (fun d => d.id == driverId && d.status == DriverStatus.online) with
        | none => .error (.Conflict "Driver is not available")
        | some driver =>
          if w.offers.any (fun o => o.rideId == rideId && o.driverId == driverId &&
              o.status == OfferStatus.pending) then
            let assign : Ride → Ride := fun r =>
              { r with driverId := some driverId, status := RideStatus.DRIVER_ASSIGNED,
                       version := r.version + 1 }
            let rides2 := w.rides.map (fun r => if r.id == rideId then assign r else r)
            let drivers2 := w.drivers.map (fun d => if d.id == driverId then
              { d with status := DriverStatus.busy } else d)
            let offers2 := w.offers.map (fun o =>
              if o.rideId == rideId && o.driverId == driverId then
                { o with status := OfferStatus.accepted }
              else if o.rideId == rideId && o.status == OfferStatus.pending then
                { o with status := OfferStatus.cancelled }
              else o)
            let geo2 := removeDriverLocation w.geoIndex driver.vehicleType driverId
            let sims2 := if driverId ∈ w.simulators then w.simulators else driverId :: w.simulators
            .ok (assign ride, { w with rides := rides2, drivers := drivers2, offers := offers2,
                                       geoIndex := geo2, simulators := sims2 })
          else .error (.Conflict "No pending offer for this driver")
      else
        if ride.driverId.isSome then
          .error (.Conflict "Ride has already been assigned to another driver")
        else .error (.InvalidStateTransition ride.status.name "DRIVER_ASSIGNED" "Ride")

/-- A scored matching candidate as built in `findDriversForRide`. -/
structure ScoredDriver where
  driverId : Nat
  distance : ℚ
  score : ℚ
deriving DecidableEq, Repr

/-- Candidate score: `0.4·(1/(1+d)) + 0.3·(rating/5) + 0.3·(acceptance/100)`. -/
def scoreDriver (d : Driver) (distance : ℚ) : ℚ :=
  (1 / (1 + distance)) * (2/5) + (d.rating / 5) * (3/10) + (d.acceptanceRate / 100) * (3/10)

/-- `findDriversForRide(rideId)`, with the Redis `GEORADIUS` reply passed in
as `nearbyDrivers : List (driverId × distanceKm)` (the geo adapter is the
boundary of the embedding).  Requires status `REQUESTED` or `MATCHING`;
writes `status = 'MATCHING'` (a plain status write: NO version change);
with no nearby drivers writes `status = 'REQUESTED'` back (again without
touching `version`) and returns no candidates; otherwise loads the online
candidates, scores and ranks them, and inserts one pending offer per
candidate expiring in 15 s (`ride_offers` has no per-pair unique
constraint, so the `ON CONFLICT DO NOTHING` insert is a plain append). -/
def findDriversForRide (w : World) (rideId : Nat) (nearbyDrivers : List (Nat × ℚ)) :
    Except Err (List ScoredDriver × World) :=
  match w.rides.find? (fun r => r.id == rideId) with
  | none => .error (.NotFound "Ride")
  | some ride =>
    if ride.status == RideStatus.REQUESTED || ride.status == RideStatus.MATCHING then
      let w1 : World := { w with rides := w.rides.map (fun r => if r.id == rideId then
        { r with status := RideStatus.MATCHING } else r) }
      if nearbyDrivers.isEmpty then
        let w2 : World := { w1 with rides := w1.rides.map (fun r => if r.id == rideId then
          { r with status := RideStatus.REQUESTED } else r) }
        .ok ([], w2)
      else
        let online := w1.drivers.filter (fun d => d.status == DriverStatus.online &&
          nearbyDrivers.any (fun nd => nd.1 == d.id))
        let scored := online.map (fun d =>
          let distance := jsOrQ ((nearbyDrivers.find? (fun nd => nd.1 == d.id)).map Prod.snd) 999
          ScoredDriver.mk d.id distance (scoreDriver d distance))
        let ranked := List.insertionSort (fun a b => b.score ≤ a.score) scored
        let newOffers := ranked.enum.map (fun p =>
          Offer.mk (w1.nextId + p.1) rideId p.2.driverId OfferStatus.pending (w1.now + 15000))
        .ok (ranked, { w1 with offers := w1.offers ++ newOffers,
                               nextId := w1.nextId + ranked.length })
    else .error (.InvalidStateTransition ride.status.name "MATCHING" "Ride")

/-! ## Payment service (`paymentService.js`)

The payment pipeline only touches the `payments` table, the (already
trip-joined) `trips` rows, the Redis idempotency cache and the per-trip
`payment_lock`.  The mock PSP randomness is made explicit: an oracle list
of card outcomes (`headD true` consumed per card charge), the fixed clock
for the CASH and WALLET unix-ms references and a fresh-id counter for uuids. -/

/-- The mock PSP reply (`status`/`reference`/`error_code` fields actually
read back by `processPayment`). -/
structure PspResult where
  status : String
  reference : Option String
  errorCode : Option String
deriving DecidableEq, Repr

/-- `processCashPayment`: immediate completion, `CASH-<unix-ms>`. -/
def processCashPayment (now : Nat) : PspResult :=
  ⟨"completed", some ("CASH-" ++ toString now), none⟩

/-- `processCardPayment`: Bernoulli(0.95) success (the draw is the given
oracle bit), `CARD-<8 hex>` on success, `CARD_DECLINED` failure otherwise. -/
def processCardPayment (success : Bool) (refSeed : Nat) : PspResult :=
  if success then ⟨"completed", some ("CARD-" ++ toString refSeed), none⟩
  else ⟨"failed", none, some "CARD_DECLINED"⟩

/-- `processWalletPayment`: always completes, `WALLET-<unix-ms>`. -/
def processWalletPayment (now : Nat) : PspResult :=
  ⟨"completed", some ("WALLET-" ++ toString now), none⟩

/-- A row of `payments`. -/
structure Payment where
  id : Nat
  tripId : Nat
  amount : Option ℚ
  method : String
  status : String
  pspReference : Option String
  pspResponse : Option PspResult
  idempotencyKey : Option String
  completedAt : Option Nat
deriving DecidableEq, Repr

/-- The trip row as read by `processPayment` (`trips` joined with `rides`;
the joined rider/driver ids feed only notifications, which are outside
the state). -/
structure PayTrip where
  id : Nat
  status : String
  totalFare : Option ℚ
deriving DecidableEq, Repr

/-- State touched by `processPayment`: `payments`, trip rows, the Redis
idempotency cache (`payment:idempotency:<key>`), held `payment_lock:*`
keys, the PSP charge counter and oracle, the clock, a uuid counter. -/
structure PayWorld where
  payments : List Payment
  trips : List PayTrip
  idemCache : List (String × Payment)
  redisLocks : List String
  pspCalls : Nat
  pspOracle : List Bool
  now : Nat
  nextId : Nat
deriving DecidableEq, Repr

/-- `checkIdempotencyKey`: Redis `GET payment:idempotency:<key>`. -/
def checkIdempotencyKey (w : PayWorld) (key : String) : Option Payment :=
  (w.idemCache.find? (fun kv => kv.1 == key)).map (fun kv => kv.2)

/-- The `payment_lock:<tripId>` Redis key. -/
def lockKeyFor (tripId : Nat) : String := "payment_lock:" ++ toString tripId

/-- Run the method dispatch of step (d): `cash`/`card`/`wallet`, or the
default branch raising Conflict.  Returns the PSP reply and the remaining
card oracle; every invocation is one PSP charge. -/
def runPsp (method : String) (now refSeed : Nat) (oracle : List Bool) :
    Option (PspResult × List Bool) :=
  if method == "cash" then some (processCashPayment now, oracle)
  else if method == "card" then some (processCardPayment (oracle.headD true) refSeed, oracle.tail)
  else if method == "wallet" then some (processWalletPayment now, oracle)
  else none

/-- The serializable transaction inside `processPayment` after the existing
payment for the trip has been loaded (`hasExisting` tells whether a row
exists): load the trip (must be `COMPLETED`), upsert the payment to
`processing` with the idempotency key, invoke the PSP, persist the PSP
outcome (`completed_at = now` iff completed), store the result in the
idempotency cache, and count the charge.  A raised error aborts the
transaction, so no intermediate write survives. -/
def processPaymentCore (w : PayWorld) (tripId : Nat) (method idemKey : String)
    (hasExisting : Bool) : Except Err (Payment × PayWorld) :=
  match w.trips.find? (fun t => t.id == tripId) with
  | none => .error (.NotFound "Trip")
  | some trip =>
    if trip.status == "COMPLETED" then
      let payments1 : List Payment :=
        if hasExisting then
          w.payments.map (fun p => if p.tripId == tripId then
            { p with status := "processing", idempotencyKey := some idemKey } else p)
        else
          w.payments ++ [⟨w.nextId, tripId, trip.totalFare, method, "processing",
                          none, none, some idemKey, none⟩]
      match runPsp method w.now (w.nextId + 1) w.pspOracle with
      | none => .error (.Conflict ("Invalid payment method: " ++ method))
      | some (psp, oracle2) =>
        let isCompleted := psp.status == "completed"
        let payments2 := payments1.map (fun p => if p.tripId == tripId then
          { p with status := psp.status, pspReference := psp.reference,
                   pspResponse := some psp,
                   completedAt := if isCompleted then some w.now else none } else p)
        match payments2.find? (fun p => p.tripId == tripId) with
        | none => .error (.NotFound "Payment")
        | some payment =>
          .ok (payment, { w with payments := payments2,
                                 idemCache := (idemKey, payment) :: w.idemCache,
                                 pspCalls := w.pspCalls + 1,
                                 pspOracle := oracle2,
                                 nextId := w.nextId + 2 })
    else .error (.Conflict "Trip must be completed before payment")

/-- The transaction body: an already-`completed` payment for the trip is
returned as-is (note: WITHOUT caching it under the new key); otherwise the
core upsert-and-charge path runs. -/
def processPaymentTx (w : PayWorld) (tripId : Nat) (method idemKey : String) :
    Except Err (Payment × PayWorld) :=
  match w.payments.find? (fun p => p.tripId == tripId) with
  | some existing =>
    if existing.status == "completed" then .ok (existing, w)
    else processPaymentCore w tripId method idemKey true
  | none => processPaymentCore w tripId method idemKey false

/-- `processPayment(tripId, paymentMethod, idempotencyKey)`: fast-path
idempotency cache hit returns the cached payment verbatim; otherwise
`SET payment_lock:<tripId> ... NX` — when the lock is already held the
code sleeps 100 ms, re-checks the cache, and on a second miss raises
Conflict without writing anything; with the lock acquired the transaction
runs and the `finally` block releases the lock (its fence value still
matches in this sequential embedding), leaving the lock store unchanged. -/
def processPayment (w : PayWorld) (tripId : Nat) (method idemKey : String) :
    Except Err (Payment × PayWorld) :=
  match checkIdempotencyKey w idemKey with
  | some p => .ok (p, w)
  | none =>
    if lockKeyFor tripId ∈ w.redisLocks then
      match checkIdempotencyKey w idemKey with
      | some p => .ok (p, w)
      | none => .error (.Conflict "Payment is being processed. Please try again.")
    else processPaymentTx w tripId method idemKey

/-- Structural equality of service results is decidable. -/
instance {e a : Type _} [DecidableEq e] [DecidableEq a] : DecidableEq (Except e a) :=
  fun x y => match x, y with
  | .error u, .error v =>
    if h : u = v then .isTrue (h ▸ rfl) else .isFalse (fun hc => h (Except.error.inj hc))
  | .ok u, .ok v =>
    if h : u = v then .isTrue (h ▸ rfl) else .isFalse (fun hc => h (Except.ok.inj hc))
  | .error _, .ok _ => .isFalse Except.noConfusion
  | .ok _, .error _ => .isFalse Except.noConfusion

/-! ## Concrete states used to exercise the theorems -/

/-- A ride mid-trip (`IN_PROGRESS`), not yet completed. -/
def rideInProgress : Ride :=
  { id := 1, riderId := 10, driverId := none, status := .IN_PROGRESS, version := 4,
    tier := some "economy", surgeMultiplier := 1, estimatedDistanceKm := 5,
    cancelledAt := none, cancellationReason := none }

def worldInProgress : World :=
  { rides := [rideInProgress], drivers := [], offers := [], trips := [], geoIndex := [],
    driverLocations := [], simulators := [], locks := [], now := 777, nextId := 9 }

def rideInProgressCancelled : Ride :=
  { rideInProgress with status := .CANCELLED, cancelledAt := some 777, version := 5 }

def worldInProgressCancelled : World :=
  { worldInProgress with rides := [rideInProgressCancelled] }

/-- A ride with its driver en route to pickup. -/
def rideEnRoute : Ride :=
  { id := 1, riderId := 10, driverId := some 2, status := .DRIVER_EN_ROUTE, version := 6,
    tier := some "economy", surgeMultiplier := 1, estimatedDistanceKm := 5,
    cancelledAt := none, cancellationReason := none }

def driverBusy : Driver :=
  { id := 2, status := .busy, vehicleType := "economy", rating := 4,
    acceptanceRate := 80, totalRides := 12 }

/-- Driver 2 is busy on the en-route ride, has a last known location, is
absent from the geo index and has a running motion simulator. -/
def worldEnRoute : World :=
  { rides := [rideEnRoute], drivers := [driverBusy], offers := [], trips := [],
    geoIndex := [], driverLocations := [⟨2, 13, 77⟩], simulators := [2], locks := [],
    now := 888, nextId := 20 }

def rideEnRouteCancelled : Ride :=
  { rideEnRoute with status := .CANCELLED, cancelledAt := some 888, version := 7 }

def worldEnRouteCancelled : World :=
  { worldEnRoute with rides := [rideEnRouteCancelled],
                      drivers := [{ driverBusy with status := .online }] }

/-- No ride row becomes `IN_PROGRESS` in a step unless a row with that id
was already `IN_PROGRESS` or stood at `DRIVER_ARRIVED` before the step. -/
def InProgressProvenance (w w' : World) : Prop :=
  ∀ x ∈ w'.rides, x.status = RideStatus.IN_PROGRESS →
    ∃ r ∈ w.rides, r.id = x.id ∧
      (r.status = RideStatus.IN_PROGRESS ∨ r.status = RideStatus.DRIVER_ARRIVED)

/-- Each ride row after a step either is an untouched row of the previous
state or has its version incremented by exactly 1. -/
def VersionDiscipline (w w' : World) : Prop :=
  ∀ x ∈ w'.rides, ∃ r ∈ w.rides, r.id = x.id ∧ (x = r ∨ x.version = r.version + 1)

/-- Each ride row after a step keeps its version and is either untouched
or merely re-stamped to `MATCHING` / `REQUESTED`. -/
def MatchingStatusWriteOnly (w w' : World) : Prop :=
  ∀ x ∈ w'.rides, ∃ r ∈ w.rides, r.id = x.id ∧ x.version = r.version ∧
    (x = r ∨ x = { r with status := RideStatus.MATCHING } ∨
     x = { r with status := RideStatus.REQUESTED })

/-- A freshly requested ride, no drivers online anywhere. -/
def rideRequested : Ride :=
  { id := 1, riderId := 10, driverId := none, status := .REQUESTED, version := 1,
    tier := some "economy", surgeMultiplier := 1, estimatedDistanceKm := 5,
    cancelledAt := none, cancellationReason := none }

def worldRequested : World :=
  { rides := [rideRequested], drivers := [], offers := [], trips := [], geoIndex := [],
    driverLocations := [], simulators := [], locks := [], now := 500, nextId := 30 }

def worldReqMatching : World :=
  { worldRequested with rides := [{ rideRequested with status := .MATCHING }] }

/-- A ride whose driver has arrived at pickup. -/
def rideArrived : Ride :=
  { id := 1, riderId := 10, driverId := some 2, status := .DRIVER_ARRIVED, version := 3,
    tier := some "economy", surgeMultiplier := 1, estimatedDistanceKm := 5,
    cancelledAt := none, cancellationReason := none }

def worldArrived : World :=
  { rides := [rideArrived], drivers := [], offers := [], trips := [], geoIndex := [],
    driverLocations := [], simulators := [], locks := [], now := 600, nextId := 40 }

def rideStarted : Ride := { rideArrived with status := .IN_PROGRESS, version := 4 }

def worldStarted : World := { worldArrived with rides := [rideStarted] }

/-- A matchable ride with one online candidate driver and two pending
offers (drivers 2 and 3); driver 2 is in the geo index. -/
def rideMatching : Ride :=
  { id := 1, riderId := 10, driverId := none, status := .MATCHING, version := 2,
    tier := some "economy", surgeMultiplier := 1, estimatedDistanceKm := 5,
    cancelledAt := none, cancellationReason := none }

def driverOnline : Driver :=
  { id := 2, status := .online, vehicleType := "economy", rating := 5,
    acceptanceRate := 100, totalRides := 3 }

def offerPending : Offer :=
  { id := 100, rideId := 1, driverId := 2, status := .pending, expiresAt := 2000 }

def offerOther : Offer :=
  { id := 101, rideId := 1, driverId := 3, status := .pending, expiresAt := 2000 }

def worldMatching : World :=
  { rides := [rideMatching], drivers := [driverOnline], offers := [offerPending, offerOther],
    trips := [], geoIndex := [⟨"economy", 2, 77, 13⟩], driverLocations := [],
    simulators := [], locks := [], now := 1000, nextId := 60 }

def rideAssigned : Ride :=
  { rideMatching with driverId := some 2, status := .DRIVER_ASSIGNED, version := 3 }

def worldAssigned : World :=
  { worldMatching with rides := [rideAssigned],
                       drivers := [{ driverOnline with status := .busy }],
                       offers := [{ offerPending with status := .accepted },
                                  { offerOther with status := .cancelled }],
                       geoIndex := [], simulators := [2] }

/-- The same ride already assigned to a different driver (3). -/
def rideTaken : Ride :=
  { rideMatching with driverId := some 3, status := .DRIVER_ASSIGNED, version := 3 }

def worldTaken : World := { worldMatching with rides := [rideTaken] }

/-- A completed trip awaiting payment, pristine payment state. -/
def payTripDone : PayTrip := { id := 1, status := "COMPLETED", totalFare := some 147 }

def payWorld0 : PayWorld :=
  { payments := [], trips := [payTripDone], idemCache := [], redisLocks := [],
    pspCalls := 0, pspOracle := [], now := 1000, nextId := 5 }

def payPsp1 : PspResult :=
  { status := "completed", reference := some "CASH-1000", errorCode := none }

def payResult1 : Payment :=
  { id := 5, tripId := 1, amount := some 147, method := "cash", status := "completed",
    pspReference := some "CASH-1000", pspResponse := some payPsp1,
    idempotencyKey := some "K1", completedAt := some 1000 }

def payWorld1 : PayWorld :=
  { payWorld0 with payments := [payResult1], idemCache := [("K1", payResult1)],
                   pspCalls := 1, nextId := 7 }

/-- The same pristine payment state but with the per-trip lock held by
another process. -/
def payWorldLocked : PayWorld := { payWorld0 with redisLocks := ["payment_lock:1"] }

/-! ## Theorems -/

/-- Inverting membership in a mapped ride list. -/
theorem mem_map_inv {l : List Ride} {g : Ride → Ride} {x : Ride} (hx : x ∈ l.map g) :
    ∃ r ∈ l, x = g r := by
  obtain ⟨r, hr, hrx⟩ := List.mem_map.mp hx
  exact ⟨r, hr, hrx.symm⟩

/-- A per-row update that never writes `IN_PROGRESS` preserves
in-progress provenance. -/
theorem provenance_of_map {l : List Ride} {g : Ride → Ride}
    (hg : ∀ r, g r = r ∨ ((g r).id = r.id ∧ (g r).status ≠ RideStatus.IN_PROGRESS)) :
    ∀ x ∈ l.map g, x.status = RideStatus.IN_PROGRESS →
      ∃ r ∈ l, r.id = x.id ∧
        (r.status = RideStatus.IN_PROGRESS ∨ r.status = RideStatus.DRIVER_ARRIVED) := by
  intro x hx hxst
  obtain ⟨r, hr, rfl⟩ := mem_map_inv hx
  rcases hg r with h | ⟨hid, hst⟩
  · exact ⟨r, hr, by rw [h], Or.inl (by rw [h] at hxst; exact hxst)⟩
  · exact absurd hxst hst

/-- A per-row update targeting the id of a found row that already stands
at `DRIVER_ARRIVED` (or `IN_PROGRESS`) preserves provenance. -/
theorem provenance_of_targeted_map {l : List Ride} {id : Nat} {cur : Ride} {g : Ride → Ride}
    (hfind : l.find? (fun r => r.id == id) = some cur)
    (harr : cur.status = RideStatus.IN_PROGRESS ∨ cur.status = RideStatus.DRIVER_ARRIVED)
    (hg : ∀ r, g r = r ∨ ((g r).id = r.id ∧ r.id = id)) :
    ∀ x ∈ l.map g, x.status = RideStatus.IN_PROGRESS →
      ∃ r ∈ l, r.id = x.id ∧
        (r.status = RideStatus.IN_PROGRESS ∨ r.status = RideStatus.DRIVER_ARRIVED) := by
  intro x hx hxst
  obtain ⟨r, hr, rfl⟩ := mem_map_inv hx
  rcases hg r with h | ⟨hid, hrid⟩
  · exact ⟨r, hr, by rw [h], Or.inl (by rw [h] at hxst; exact hxst)⟩
  · have hcurmem := List.mem_of_find?_eq_some hfind
    have hcurid : cur.id = id := by simpa using List.find?_some hfind
    exact ⟨cur, hcurmem, by rw [hid, hrid, hcurid], harr⟩

/-- A per-row update that preserves ids and bumps the version of every
row it modifies by 1 satisfies the version discipline. -/
theorem version_of_map {l : List Ride} {g : Ride → Ride}
    (hg : ∀ r, g r = r ∨ ((g r).id = r.id ∧ (g r).version = r.version + 1)) :
    ∀ x ∈ l.map g, ∃ r ∈ l, r.id = x.id ∧ (x = r ∨ x.version = r.version + 1) := by
  intro x hx
  obtain ⟨r, hr, rfl⟩ := mem_map_inv hx
  rcases hg r with h | ⟨hid, hver⟩
  · exact ⟨r, hr, by rw [h], Or.inl h⟩
  · exact ⟨r, hr, hid.symm, Or.inr hver⟩

/-- `IN_PROGRESS` is a permitted target only from `DRIVER_ARRIVED` in the
transition table. -/
theorem inprogress_target_iff (st : RideStatus) :
    RideStatus.IN_PROGRESS ∈ STATUS_TRANSITIONS st ↔ st = RideStatus.DRIVER_ARRIVED := by
  cases st <;> decide

/-- Shape of the rides table after a successful `cancelRide`. -/
theorem cancelRide_ok_rides {w : World} {id : Nat} {reason : Option String} {r' : Ride}
    {w' : World} (h : cancelRide w id reason = .ok (r', w')) :
    w'.rides = w.rides.map (fun r =>
      if r.id == id && !(r.status == RideStatus.COMPLETED || r.status == RideStatus.CANCELLED) then
        { r with status := RideStatus.CANCELLED, cancelledAt := some w.now,
                 cancellationReason := reason, version := r.version + 1 } else r) := by
  rcases hfind : w.rides.find? (fun r => r.id == id &&
    !(r.status == RideStatus.COMPLETED || r.status == RideStatus.CANCELLED)) with _ | r0
  · simp only [cancelRide, hfind] at h
    exact Except.noConfusion h
  · simp only [cancelRide, hfind] at h
    cases hd : r0.driverId <;> simp only [hd, Except.ok.injEq, Prod.mk.injEq] at h <;>
      obtain ⟨h1, h2⟩ := h <;> subst h2 <;> rfl

/-- Success conditions and rides-table shape of `updateRideStatusForTrip`:
only the target status is constrained. -/
theorem updateRideStatusForTrip_ok_rides {w : World} {rideId : Nat} {s : RideStatus}
    {r' : Ride} {w' : World} (h : updateRideStatusForTrip w rideId s = .ok (r', w')) :
    (s = RideStatus.DRIVER_EN_ROUTE ∨ s = RideStatus.DRIVER_ARRIVED) ∧
    w'.rides = w.rides.map (fun r => if r.id == rideId then
      { r with status := s, version := r.version + 1 } else r) := by
  by_cases hs : (s == RideStatus.DRIVER_EN_ROUTE || s == RideStatus.DRIVER_ARRIVED) = true
  · rcases hfind : w.rides.find? (fun r => r.id == rideId) with _ | r0
    · simp only [updateRideStatusForTrip, hs, if_true, hfind] at h
      exact Except.noConfusion h
    · simp only [updateRideStatusForTrip, hs, if_true, hfind, Except.ok.injEq,
        Prod.mk.injEq] at h
      obtain ⟨h1, h2⟩ := h
      subst h2
      refine ⟨?_, rfl⟩
      simpa using hs
  · simp only [updateRideStatusForTrip, hs, if_false] at h
    exact Except.noConfusion h

/-- Success conditions and rides-table shape of a successful `acceptRide`. -/
theorem acceptRide_ok_rides {w : World} {rideId driverId : Nat} {r' : Ride} {w' : World}
    (h : acceptRide w rideId driverId = .ok (r', w')) :
    w'.rides = w.rides.map (fun r => if r.id == rideId then
      { r with driverId := some driverId, status := RideStatus.DRIVER_ASSIGNED,
               version := r.version + 1 } else r) := by
  by_cases hlock : ("ride:" ++ toString rideId) ∈ w.locks
  · simp only [acceptRide, if_pos hlock] at h
    exact Except.noConfusion h
  · rcases hfind : w.rides.find? (fun r => r.id == rideId) with _ | ride
    · simp only [acceptRide, if_neg hlock, hfind] at h
      exact Except.noConfusion h
    · cases hst : (ride.status == RideStatus.MATCHING) with
      | false =>
        simp only [acceptRide, if_neg hlock, hfind, hst, if_false] at h
        cases hiso : ride.driverId.isSome <;> simp only [hiso, if_true, if_false] at h <;>
          exact Except.noConfusion h
      | true =>
        rcases hdrv : w.drivers.find? (fun d => d.id == driverId &&
            d.status == DriverStatus.online) with _ | driver
        · simp only [acceptRide, if_neg hlock, hfind, hst, if_true, hdrv] at h
          exact Except.noConfusion h
        · cases hoff : (w.offers.any fun o => o.rideId == rideId && o.driverId == driverId &&
              o.status == OfferStatus.pending) with
          | false =>
            simp only [acceptRide, if_neg hlock, hfind, hst, if_true, hdrv, hoff,
              if_false] at h
            exact Except.noConfusion h
          | true =>
            simp only [acceptRide, if_neg hlock, hfind, hst, if_true, hdrv, hoff,
              Except.ok.injEq, Prod.mk.injEq] at h
            obtain ⟨h1, h2⟩ := h
            subst h2
            rfl

/-- A successful `startTrip` found the ride at `DRIVER_ARRIVED` and stamps
it `IN_PROGRESS` with a version bump. -/
theorem startTrip_ok_rides {w : World} {rideId : Nat} {tid : Nat} {w' : World}
    (h : startTrip w rideId = .ok (tid, w')) :
    ∃ cur, w.rides.find? (fun r => r.id == rideId) = some cur ∧
      cur.status = RideStatus.DRIVER_ARRIVED ∧
      w'.rides = w.rides.map (fun r => if r.id == rideId then
        { r with status := RideStatus.IN_PROGRESS, version := r.version + 1 } else r) := by
  rcases hfind : w.rides.find? (fun r => r.id == rideId) with _ | cur
  · simp only [startTrip, hfind] at h
    exact Except.noConfusion h
  · by_cases harr : (cur.status == RideStatus.DRIVER_ARRIVED) = true
    · simp only [startTrip, hfind, harr, if_true, Except.ok.injEq, Prod.mk.injEq] at h
      obtain ⟨h1, h2⟩ := h
      subst h2
      exact ⟨cur, hfind, by simpa using harr, rfl⟩
    · simp only [startTrip, hfind, harr, if_false] at h
      exact Except.noConfusion h

/-- A successful `endTrip` stamps the trip's ride `COMPLETED` with a
version bump. -/
theorem endTrip_ok_rides {w : World} {tripId : Nat} {dk dm : Option ℚ} {poly : Option String}
    {fb : FareBreakdown} {w' : World} (h : endTrip w tripId dk dm poly = .ok (fb, w')) :
    ∃ trip, w.trips.find? (fun t => t.id == tripId) = some trip ∧
      w'.rides = w.rides.map (fun r => if r.id == trip.rideId then
        { r with status := RideStatus.COMPLETED, version := r.version + 1 } else r) := by
  rcases hfind : w.trips.find? (fun t => t.id == tripId) with _ | trip
  · simp only [endTrip, hfind] at h
    exact Except.noConfusion h
  · refine ⟨trip, hfind, ?_⟩
    cases hst : (trip.status == "IN_PROGRESS") with
    | false =>
      simp only [endTrip, hfind, hst, if_false] at h
      exact Except.noConfusion h
    | true =>
      rcases hrfind : w.rides.find? (fun r => r.id == trip.rideId) with _ | ride
      · simp only [endTrip, hfind, hst, if_true, hrfind] at h
        exact Except.noConfusion h
      · simp only [endTrip, hfind, hst, if_true, hrfind, Except.ok.injEq,
          Prod.mk.injEq] at h
        obtain ⟨h1, h2⟩ := h
        subst h2
        rfl

/-- A successful `updateRideStatus` found the ride, its target is in the
transition table for the found status, and the write bumps the version
(optionally fenced by the expected version). -/
theorem updateRideStatus_ok_rides {w : World} {id : Nat} {s : RideStatus} {v : Option Nat}
    {r' : Ride} {w' : World} (h : updateRideStatus w id s v = .ok (r', w')) :
    ∃ cur, w.rides.find? (fun r => r.id == id) = some cur ∧
      s ∈ STATUS_TRANSITIONS cur.status ∧
      (w'.rides = w.rides.map (fun r => if r.id == id && r.version == cur.version then
          { r with status := s, version := r.version + 1 } else r) ∨
       w'.rides = w.rides.map (fun r => if r.id == id then
          { r with status := s, version := r.version + 1 } else r)) := by
  rcases hfind : w.rides.find? (fun r => r.id == id) with _ | cur
  · simp only [updateRideStatus, hfind] at h
    exact Except.noConfusion h
  · by_cases hmem : s ∈ STATUS_TRANSITIONS cur.status
    · cases v with
      | none =>
        simp only [updateRideStatus, hfind, if_pos hmem, Except.ok.injEq, Prod.mk.injEq] at h
        obtain ⟨h1, h2⟩ := h
        subst h2
        exact ⟨cur, hfind, hmem, Or.inr rfl⟩
      | some vv =>
        by_cases hv : (cur.version == vv) = true
        · have hveq : cur.version = vv := by simpa using hv
          subst hveq
          simp only [updateRideStatus, hfind, if_pos hmem, hv, if_true, Except.ok.injEq,
            Prod.mk.injEq] at h
          obtain ⟨h1, h2⟩ := h
          subst h2
          exact ⟨cur, hfind, hmem, Or.inl rfl⟩
        · simp only [updateRideStatus, hfind, if_pos hmem, hv, if_false] at h
          exact Except.noConfusion h
    · simp only [updateRideStatus, hfind, if_neg hmem] at h
      exact Except.noConfusion h

/-- A successful `findDriversForRide` either stamps the ride `MATCHING`
(candidates found) or stamps it back `REQUESTED` (no nearby drivers);
neither write touches the version. -/
theorem findDriversForRide_ok_rides {w : World} {rideId : Nat} {nearby : List (Nat × ℚ)}
    {res : List ScoredDriver} {w' : World}
    (h : findDriversForRide w rideId nearby = .ok (res, w')) :
    w'.rides = w.rides.map (fun r => if r.id == rideId then
      { r with status := RideStatus.MATCHING } else r) ∨
    w'.rides = w.rides.map (fun r => if r.id == rideId then
      { r with status := RideStatus.REQUESTED } else r) := by
  rcases hfind : w.rides.find? (fun r => r.id == rideId) with _ | ride
  · simp only [findDriversForRide, hfind] at h
    exact Except.noConfusion h
  · by_cases hst : (ride.status == RideStatus.REQUESTED || ride.status == RideStatus.MATCHING) = true
    · by_cases hemp : nearby.isEmpty = true
      · right
        simp only [findDriversForRide, hfind, hst, if_true, hemp, Except.ok.injEq,
          Prod.mk.injEq] at h
        obtain ⟨h1, h2⟩ := h
        subst h2
        show (w.rides.map _).map _ = _
        rw [List.map_map]
        congr 1
        funext r
        by_cases hr : (r.id == rideId) = true
        · simp [Function.comp, hr]
        · simp [Function.comp, hr]
      · left
        simp only [findDriversForRide, hfind, hst, if_true, hemp, Bool.false_eq_true,
          if_false, Except.ok.injEq, Prod.mk.injEq] at h
        obtain ⟨h1, h2⟩ := h
        subst h2
        rfl
    · simp only [findDriversForRide, hfind, hst, if_false] at h
      exact Except.noConfusion h

/-- C7: for every tier and non-negative distance, duration and surge
multiplier, `calculateFare` returns a breakdown whose distance fare is
`round2 (distance·per_km)`, time fare `round2 (duration·per_min)`, surge
fare `round2 ((base+distanceFare+timeFare)·(surge−1))` when surge > 1 and
0 otherwise, taxes `round2 ((subtotal+surgeFare)·5%)`, and whose total is
within ±0.01 of `round2` of the sum of all components. -/
theorem calculateFare_breakdown (tier : Option String) (d dur s : ℚ)
    (hd : 0 ≤ d) (hdur : 0 ≤ dur) (hs : 0 ≤ s) :
    (calculateFare tier d dur s).baseFare = (fareConfigFor tier).baseFare ∧
    (calculateFare tier d dur s).distanceFare = round2 (d * (fareConfigFor tier).perKm) ∧
    (calculateFare tier d dur s).timeFare = round2 (dur * (fareConfigFor tier).perMin) ∧
    (calculateFare tier d dur s).surgeFare =
      (if s > 1 then
        round2 (((fareConfigFor tier).baseFare + (calculateFare tier d dur s).distanceFare +
          (calculateFare tier d dur s).timeFare) * (s - 1))
      else 0) ∧
    (calculateFare tier d dur s).taxes =
      round2 (((fareConfigFor tier).baseFare + (calculateFare tier d dur s).distanceFare +
        (calculateFare tier d dur s).timeFare + (calculateFare tier d dur s).surgeFare) * (5/100)) ∧
    |(calculateFare tier d dur s).total -
      round2 ((fareConfigFor tier).baseFare + (calculateFare tier d dur s).distanceFare +
        (calculateFare tier d dur s).timeFare + (calculateFare tier d dur s).surgeFare +
        (calculateFare tier d dur s).taxes)| ≤ 1/100 := by
  refine ⟨?_, ?_, ?_, ?_, ?_, ?_⟩ <;> simp only [calculateFare]
  ring_nf
  norm_num

/-- Witness for C7 at tier economy, 5 km, 20 min, surge 1. -/
theorem calculateFare_breakdown_witness :
    ((0:ℚ) ≤ 5 ∧ (0:ℚ) ≤ 20 ∧ (0:ℚ) ≤ 1) ∧
    ((calculateFare (some "economy") 5 20 1).baseFare = (fareConfigFor (some "economy")).baseFare ∧
     (calculateFare (some "economy") 5 20 1).distanceFare =
       round2 (5 * (fareConfigFor (some "economy")).perKm) ∧
     (calculateFare (some "economy") 5 20 1).timeFare =
       round2 (20 * (fareConfigFor (some "economy")).perMin) ∧
     (calculateFare (some "economy") 5 20 1).surgeFare =
       (if (1:ℚ) > 1 then
         round2 (((fareConfigFor (some "economy")).baseFare +
           (calculateFare (some "economy") 5 20 1).distanceFare +
           (calculateFare (some "economy") 5 20 1).timeFare) * (1 - 1))
       else 0) ∧
     (calculateFare (some "economy") 5 20 1).taxes =
       round2 (((fareConfigFor (some "economy")).baseFare +
         (calculateFare (some "economy") 5 20 1).distanceFare +
         (calculateFare (some "economy") 5 20 1).timeFare +
         (calculateFare (some "economy") 5 20 1).surgeFare) * (5/100)) ∧
     |(calculateFare (some "economy") 5 20 1).total -
       round2 ((fareConfigFor (some "economy")).baseFare +
         (calculateFare (some "economy") 5 20 1).distanceFare +
         (calculateFare (some "economy") 5 20 1).timeFare +
         (calculateFare (some "economy") 5 20 1).surgeFare +
         (calculateFare (some "economy") 5 20 1).taxes)| ≤ 1/100) :=
  ⟨⟨by norm_num, by norm_num, by norm_num⟩,
   calculateFare_breakdown (some "economy") 5 20 1 (by norm_num) (by norm_num) (by norm_num)⟩

/-- C9: for every tier outside economy / premium / xl — including the JS
`undefined` argument, modelled as `none` — both `calculateFare` and
`calculateEstimatedFare` silently fall back to the economy rates
(base 50, 12 per km, 1.5 per min) instead of failing. -/
theorem unknown_tier_defaults_to_economy (tier : Option String)
    (h : ∀ t, tier = some t → t ≠ "economy" ∧ t ≠ "premium" ∧ t ≠ "xl")
    (d dur s : ℚ) :
    fareConfigFor tier = { baseFare := 50, perKm := 12, perMin := 3/2 } ∧
    calculateFare tier d dur s = calculateFare (some "economy") d dur s ∧
    calculateEstimatedFare d tier = calculateEstimatedFare d (some "economy") := by
  have hcfg : fareConfigFor tier = { baseFare := 50, perKm := 12, perMin := 3/2 } := by
    cases tier with
    | none => rfl
    | some t =>
      obtain ⟨h1, h2, h3⟩ := h t rfl
      simp [fareConfigFor, FARE_CONFIG, h1, h2, h3]
  have hecon : fareConfigFor (some "economy") = { baseFare := 50, perKm := 12, perMin := 3/2 } := by
    simp [fareConfigFor, FARE_CONFIG]
  refine ⟨hcfg, ?_, ?_⟩
  · unfold calculateFare
    rw [hcfg, hecon]
  · cases tier with
    | none => simp [calculateEstimatedFare, baseFares, perKmRates]
    | some t =>
      obtain ⟨h1, h2, h3⟩ := h t rfl
      simp [calculateEstimatedFare, baseFares, perKmRates, h1, h2, h3]

/-- Witness for C9 at the undefined tier "suv". -/
theorem unknown_tier_defaults_to_economy_witness :
    fareConfigFor (some "suv") = { baseFare := 50, perKm := 12, perMin := 3/2 } ∧
    calculateFare (some "suv") 10 30 1 = calculateFare (some "economy") 10 30 1 ∧
    calculateEstimatedFare 10 (some "suv") = calculateEstimatedFare 10 (some "economy") :=
  unknown_tier_defaults_to_economy (some "suv")
    (fun t ht => by cases ht; exact ⟨by decide, by decide, by decide⟩) 10 30 1

/-- JS `||` cannot distinguish a 0 argument from an absent one. -/
theorem jsOrQ_zero_eq : jsOrQ (some 0) = jsOrQ none := by
  funext f
  simp [jsOrQ]

/-- C10: in `endTrip`, passing `actual_distance_km = 0` (or
`actual_duration_mins = 0`) produces exactly the same result and state as
omitting the input: the `||` fallback chain treats 0 as absent, so the
fare is computed from the estimated distance (else 5 km) and the elapsed
time ceiled to minutes, never from the provided zero. -/
theorem endTrip_zero_input_is_absent (w : World) (tripId : Nat) (dOpt durOpt : Option ℚ)
    (poly : Option String) :
    endTrip w tripId (some 0) durOpt poly = endTrip w tripId none durOpt poly ∧
    endTrip w tripId dOpt (some 0) poly = endTrip w tripId dOpt none poly := by
  constructor <;> (unfold endTrip; rw [jsOrQ_zero_eq])

/-- The cancellation guard of `cancelRide`, read back as a proposition. -/
theorem canCancel_iff (r : Ride) (id : Nat) :
    (r.id == id && !(r.status == RideStatus.COMPLETED || r.status == RideStatus.CANCELLED)) = true ↔
    (r.id = id ∧ r.status ≠ RideStatus.COMPLETED ∧ r.status ≠ RideStatus.CANCELLED) := by
  simp [Bool.and_eq_true, Bool.not_eq_true', Bool.or_eq_false_iff]

/-- C3 (amended): `cancelRide` succeeds exactly on rides whose status is
neither COMPLETED nor CANCELLED — `IN_PROGRESS` included, because the SQL
guard `status NOT IN ('COMPLETED','CANCELLED')` does not exclude it — and
on success sets `status = CANCELLED` with `version + 1`; CANCELLED itself
is terminal (not cancellable again, and `STATUS_TRANSITIONS` lists no
successor).  The original claim that an `IN_PROGRESS` ride is never
cancelled is refuted by `cancelRide_in_progress_counterexample`. -/
theorem cancelRide_characterization (w : World) (id : Nat) (reason : Option String) :
    ((cancelRide w id reason).isOk = true ↔
      ∃ r ∈ w.rides, r.id = id ∧ r.status ≠ RideStatus.COMPLETED ∧
        r.status ≠ RideStatus.CANCELLED) ∧
    (∀ r' w', cancelRide w id reason = .ok (r', w') →
      r'.status = RideStatus.CANCELLED ∧
      ∃ r0 ∈ w.rides, r0.id = id ∧ r0.status ≠ RideStatus.COMPLETED ∧
        r0.status ≠ RideStatus.CANCELLED ∧ r'.version = r0.version + 1) ∧
    STATUS_TRANSITIONS RideStatus.CANCELLED = [] := by
  refine ⟨?_, ?_, rfl⟩
  · rcases hfind : w.rides.find? (fun r => r.id == id &&
      !(r.status == RideStatus.COMPLETED || r.status == RideStatus.CANCELLED)) with _ | r0
    · simp only [cancelRide, hfind]
      constructor
      · intro hk
        simp [Except.isOk, Except.toBool] at hk
      · rintro ⟨r, hr, hid, h1, h2⟩
        have hnone := List.find?_eq_none.mp hfind r hr
        rw [canCancel_iff] at hnone
        exact absurd ⟨hid, h1, h2⟩ hnone
    · simp only [cancelRide, hfind]
      constructor
      · intro _
        have hmem := List.mem_of_find?_eq_some hfind
        have hp := List.find?_some hfind
        rw [canCancel_iff] at hp
        exact ⟨r0, hmem, hp⟩
      · intro _
        cases hd : r0.driverId <;> simp [hd, Except.isOk, Except.toBool]
  · intro r' w' h
    rcases hfind : w.rides.find? (fun r => r.id == id &&
      !(r.status == RideStatus.COMPLETED || r.status == RideStatus.CANCELLED)) with _ | r0
    · simp only [cancelRide, hfind] at h
      exact Except.noConfusion h
    · simp only [cancelRide, hfind] at h
      have hmem := List.mem_of_find?_eq_some hfind
      have hp := List.find?_some hfind
      rw [canCancel_iff] at hp
      cases hd : r0.driverId <;> simp only [hd, Except.ok.injEq, Prod.mk.injEq] at h <;>
        obtain ⟨h1, h2⟩ := h <;> subst h1 <;>
        exact ⟨rfl, r0, hmem, hp.1, hp.2.1, hp.2.2, rfl⟩

/-- C3 counterexample: a ride in `IN_PROGRESS` IS transitioned to
`CANCELLED` by `cancelRide`, contradicting the claim that a ride whose
status is IN_PROGRESS is never cancelled. -/
theorem cancelRide_in_progress_counterexample :
    rideInProgress.status = RideStatus.IN_PROGRESS ∧
    cancelRide worldInProgress 1 none = .ok (rideInProgressCancelled, worldInProgressCancelled) ∧
    rideInProgressCancelled.status = RideStatus.CANCELLED := by decide

/-- Witness for C3 on a concrete cancellable ride. -/
theorem cancelRide_characterization_witness :
    rideInProgressCancelled.status = RideStatus.CANCELLED ∧
    ∃ r0 ∈ worldInProgress.rides, r0.id = 1 ∧ r0.status ≠ RideStatus.COMPLETED ∧
      r0.status ≠ RideStatus.CANCELLED ∧ rideInProgressCancelled.version = r0.version + 1 :=
  (cancelRide_characterization worldInProgress 1 none).2.1 rideInProgressCancelled
    worldInProgressCancelled (by decide)

/-- C6 (amended): on every successful cancellation `cancelRide` leaves the
geo index, the simulator registry and the trips untouched; when the
cancelled ride has an assigned driver, that driver's status is set back
to `online` (and with no driver the drivers table is unchanged).  The geo
re-add and the simulator stop promised by the claim do not happen — see
`cancelRide_geo_simulator_counterexample`. -/
theorem cancelRide_driver_release (w : World) (id : Nat) (reason : Option String)
    (r' : Ride) (w' : World) (h : cancelRide w id reason = .ok (r', w')) :
    w'.geoIndex = w.geoIndex ∧ w'.simulators = w.simulators ∧ w'.trips = w.trips ∧
    (∀ d, r'.driverId = some d →
      w'.drivers = w.drivers.map (fun dr => if dr.id == d then
        { dr with status := DriverStatus.online } else dr)) ∧
    (r'.driverId = none → w'.drivers = w.drivers) := by
  rcases hfind : w.rides.find? (fun r => r.id == id &&
    !(r.status == RideStatus.COMPLETED || r.status == RideStatus.CANCELLED)) with _ | r0
  · simp only [cancelRide, hfind] at h
    exact Except.noConfusion h
  · simp only [cancelRide, hfind] at h
    cases hd : r0.driverId <;> simp only [hd, Except.ok.injEq, Prod.mk.injEq] at h <;>
      obtain ⟨h1, h2⟩ := h <;> subst h1 <;> subst h2
    · refine ⟨rfl, rfl, rfl, ?_, fun _ => rfl⟩
      intro d hdd
      simp only [hd] at hdd
      exact Option.noConfusion hdd
    · refine ⟨rfl, rfl, rfl, ?_, ?_⟩
      · intro d hdd
        simp only [hd] at hdd
        cases hdd
        rfl
      · intro hnone
        simp only [hd] at hnone
        exact Option.noConfusion hnone

/-- C6 counterexample: cancelling a `DRIVER_EN_ROUTE` ride whose driver
has a known last location neither re-adds the driver to the geo index
(still empty) nor stops the simulator (driver 2 still registered); only
the driver status flips to online. -/
theorem cancelRide_geo_simulator_counterexample :
    rideEnRoute.status = RideStatus.DRIVER_EN_ROUTE ∧ rideEnRoute.driverId = some 2 ∧
    worldEnRoute.driverLocations = [⟨2, 13, 77⟩] ∧
    cancelRide worldEnRoute 1 none = .ok (rideEnRouteCancelled, worldEnRouteCancelled) ∧
    worldEnRouteCancelled.geoIndex = [] ∧
    worldEnRouteCancelled.simulators = [2] ∧
    worldEnRouteCancelled.drivers = [{ driverBusy with status := DriverStatus.online }] := by
  decide

/-- Witness for C6 on the concrete en-route cancellation. -/
theorem cancelRide_driver_release_witness :
    worldEnRouteCancelled.geoIndex = worldEnRoute.geoIndex ∧
    worldEnRouteCancelled.simulators = worldEnRoute.simulators ∧
    worldEnRouteCancelled.trips = worldEnRoute.trips ∧
    (∀ d, rideEnRouteCancelled.driverId = some d →
      worldEnRouteCancelled.drivers = worldEnRoute.drivers.map (fun dr => if dr.id == d then
        { dr with status := DriverStatus.online } else dr)) ∧
    (rideEnRouteCancelled.driverId = none → worldEnRouteCancelled.drivers = worldEnRoute.drivers) :=
  cancelRide_driver_release worldEnRoute 1 none rideEnRouteCancelled
    worldEnRouteCancelled (by decide)

/-- C4 (amended): `updateRideStatus` only performs transitions listed in
the `STATUS_TRANSITIONS` table; `updateRideStatusForTrip`, however,
validates only that the TARGET is `DRIVER_EN_ROUTE` or `DRIVER_ARRIVED`
and succeeds from any current status (see
`updateRideStatusForTrip_any_state_counterexample`); still, across every
embedded operation no ride row ever becomes `IN_PROGRESS` unless a row
with that id already stood at `DRIVER_ARRIVED` (or was `IN_PROGRESS`). -/
theorem status_transition_discipline :
    (∀ w id s v r' w', updateRideStatus w id s v = .ok (r', w') →
      ∃ cur, w.rides.find? (fun r => r.id == id) = some cur ∧
        s ∈ STATUS_TRANSITIONS cur.status) ∧
    (∀ w rideId s r' w', updateRideStatusForTrip w rideId s = .ok (r', w') →
      s = RideStatus.DRIVER_EN_ROUTE ∨ s = RideStatus.DRIVER_ARRIVED) ∧
    (∀ w id s v r' w', updateRideStatus w id s v = .ok (r', w') → InProgressProvenance w w') ∧
    (∀ w rideId s r' w', updateRideStatusForTrip w rideId s = .ok (r', w') →
      InProgressProvenance w w') ∧
    (∀ w rideId driverId r' w', acceptRide w rideId driverId = .ok (r', w') →
      InProgressProvenance w w') ∧
    (∀ w id reason r' w', cancelRide w id reason = .ok (r', w') → InProgressProvenance w w') ∧
    (∀ w rideId tid w', startTrip w rideId = .ok (tid, w') → InProgressProvenance w w') ∧
    (∀ w tripId dk dm poly fb w', endTrip w tripId dk dm poly = .ok (fb, w') →
      InProgressProvenance w w') ∧
    (∀ w rideId nearby res w', findDriversForRide w rideId nearby = .ok (res, w') →
      InProgressProvenance w w') := by
  refine ⟨?_, ?_, ?_, ?_, ?_, ?_, ?_, ?_, ?_⟩
  · intro w id s v r' w' h
    obtain ⟨cur, hfind, hmem, _⟩ := updateRideStatus_ok_rides h
    exact ⟨cur, hfind, hmem⟩
  · intro w rideId s r' w' h
    exact (updateRideStatusForTrip_ok_rides h).1
  · intro w id s v r' w' h
    obtain ⟨cur, hfind, hmem, hsh⟩ := updateRideStatus_ok_rides h
    by_cases hsip : s = RideStatus.IN_PROGRESS
    · subst hsip
      have harr : cur.status = RideStatus.DRIVER_ARRIVED := (inprogress_target_iff _).mp hmem
      rcases hsh with h1 | h1 <;> intro x hx hxst <;> rw [h1] at hx <;>
        refine provenance_of_targeted_map hfind (Or.inr harr) ?_ x hx hxst
      · intro r
        by_cases hc : (r.id == id && r.version == cur.version) = true
        · rw [if_pos hc]
          have hc' := hc
          simp only [Bool.and_eq_true, beq_iff_eq] at hc'
          exact Or.inr ⟨rfl, hc'.1⟩
        · rw [if_neg hc]
          exact Or.inl rfl
      · intro r
        by_cases hc : (r.id == id) = true
        · rw [if_pos hc]
          exact Or.inr ⟨rfl, by simpa using hc⟩
        · rw [if_neg hc]
          exact Or.inl rfl
    · rcases hsh with h1 | h1 <;> intro x hx hxst <;> rw [h1] at hx <;>
        refine provenance_of_map ?_ x hx hxst
      · intro r
        by_cases hc : (r.id == id && r.version == cur.version) = true
        · rw [if_pos hc]
          exact Or.inr ⟨rfl, hsip⟩
        · rw [if_neg hc]
          exact Or.inl rfl
      · intro r
        by_cases hc : (r.id == id) = true
        · rw [if_pos hc]
          exact Or.inr ⟨rfl, hsip⟩
        · rw [if_neg hc]
          exact Or.inl rfl
  · intro w rideId s r' w' h
    obtain ⟨hT, hsh⟩ := updateRideStatusForTrip_ok_rides h
    intro x hx hxst
    rw [hsh] at hx
    refine provenance_of_map ?_ x hx hxst
    intro r
    by_cases hc : (r.id == rideId) = true
    · rw [if_pos hc]
      rcases hT with rfl | rfl
      · exact Or.inr ⟨rfl, by simp⟩
      · exact Or.inr ⟨rfl, by simp⟩
    · rw [if_neg hc]
      exact Or.inl rfl
  · intro w rideId driverId r' w' h
    intro x hx hxst
    rw [acceptRide_ok_rides h] at hx
    refine provenance_of_map ?_ x hx hxst
    intro r
    by_cases hc : (r.id == rideId) = true
    · rw [if_pos hc]
      exact Or.inr ⟨rfl, by simp⟩
    · rw [if_neg hc]
      exact Or.inl rfl
  · intro w id reason r' w' h
    intro x hx hxst
    rw [cancelRide_ok_rides h] at hx
    refine provenance_of_map ?_ x hx hxst
    intro r
    by_cases hc : (r.id == id &&
        !(r.status == RideStatus.COMPLETED || r.status == RideStatus.CANCELLED)) = true
    · rw [if_pos hc]
      exact Or.inr ⟨rfl, by simp⟩
    · rw [if_neg hc]
      exact Or.inl rfl
  · intro w rideId tid w' h
    obtain ⟨cur, hfind, harr, hsh⟩ := startTrip_ok_rides h
    intro x hx hxst
    rw [hsh] at hx
    refine provenance_of_targeted_map hfind (Or.inr harr) ?_ x hx hxst
    intro r
    by_cases hc : (r.id == rideId) = true
    · rw [if_pos hc]
      exact Or.inr ⟨rfl, by simpa using hc⟩
    · rw [if_neg hc]
      exact Or.inl rfl
  · intro w tripId dk dm poly fb w' h
    obtain ⟨trip, hfind, hsh⟩ := endTrip_ok_rides h
    intro x hx hxst
    rw [hsh] at hx
    refine provenance_of_map ?_ x hx hxst
    intro r
    by_cases hc : (r.id == trip.rideId) = true
    · rw [if_pos hc]
      exact Or.inr ⟨rfl, by simp⟩
    · rw [if_neg hc]
      exact Or.inl rfl
  · intro w rideId nearby res w' h
    intro x hx hxst
    rcases findDriversForRide_ok_rides h with hsh | hsh <;> rw [hsh] at hx <;>
      refine provenance_of_map ?_ x hx hxst <;> intro r
    · by_cases hc : (r.id == rideId) = true
      · rw [if_pos hc]
        exact Or.inr ⟨rfl, by simp⟩
      · rw [if_neg hc]
        exact Or.inl rfl
    · by_cases hc : (r.id == rideId) = true
      · rw [if_pos hc]
        exact Or.inr ⟨rfl, by simp⟩
      · rw [if_neg hc]
        exact Or.inl rfl

/-- C4 counterexample: `updateRideStatusForTrip` moves a ride from
`REQUESTED` straight to `DRIVER_EN_ROUTE`, a transition the table of §4.1
forbids — the en-route transition does NOT only succeed from
`DRIVER_ASSIGNED`. -/
theorem updateRideStatusForTrip_any_state_counterexample :
    rideRequested.status = RideStatus.REQUESTED ∧
    RideStatus.DRIVER_EN_ROUTE ∉ STATUS_TRANSITIONS RideStatus.REQUESTED ∧
    updateRideStatusForTrip worldRequested 1 RideStatus.DRIVER_EN_ROUTE =
      .ok ({ rideRequested with status := .DRIVER_EN_ROUTE, version := 2 },
           { worldRequested with
               rides := [{ rideRequested with status := .DRIVER_EN_ROUTE, version := 2 }] }) := by
  decide

/-- Witness for C4: a table-approved `updateRideStatus` step into
`IN_PROGRESS` from a ride standing at `DRIVER_ARRIVED`. -/
theorem status_transition_discipline_witness :
    (∃ cur, worldArrived.rides.find? (fun r => r.id == 1) = some cur ∧
      RideStatus.IN_PROGRESS ∈ STATUS_TRANSITIONS cur.status) ∧
    InProgressProvenance worldArrived worldStarted :=
  ⟨status_transition_discipline.1 worldArrived 1 RideStatus.IN_PROGRESS none rideStarted
    worldStarted (by decide),
   status_transition_discipline.2.2.1 worldArrived 1 RideStatus.IN_PROGRESS none rideStarted
    worldStarted (by decide)⟩

/-- C5 (amended): every ride-row write performed by `updateRideStatus`,
`updateRideStatusForTrip`, `acceptRide`, `cancelRide`, `startTrip` and
`endTrip` increments that row's version by exactly 1 (untouched rows are
returned bit-identically) — but the two status writes inside
`findDriversForRide` (set `MATCHING`, revert `REQUESTED`) leave the
version unchanged, contradicting the claim that they also increment it
(see `findDrivers_version_unchanged_counterexample`). -/
theorem version_discipline :
    (∀ w id s v r' w', updateRideStatus w id s v = .ok (r', w') → VersionDiscipline w w') ∧
    (∀ w rideId s r' w', updateRideStatusForTrip w rideId s = .ok (r', w') →
      VersionDiscipline w w') ∧
    (∀ w rideId driverId r' w', acceptRide w rideId driverId = .ok (r', w') →
      VersionDiscipline w w') ∧
    (∀ w id reason r' w', cancelRide w id reason = .ok (r', w') → VersionDiscipline w w') ∧
    (∀ w rideId tid w', startTrip w rideId = .ok (tid, w') → VersionDiscipline w w') ∧
    (∀ w tripId dk dm poly fb w', endTrip w tripId dk dm poly = .ok (fb, w') →
      VersionDiscipline w w') ∧
    (∀ w rideId nearby res w', findDriversForRide w rideId nearby = .ok (res, w') →
      MatchingStatusWriteOnly w w') := by
  refine ⟨?_, ?_, ?_, ?_, ?_, ?_, ?_⟩
  · intro w id s v r' w' h
    obtain ⟨cur, hfind, hmem, hsh⟩ := updateRideStatus_ok_rides h
    rcases hsh with h1 | h1 <;> intro x hx <;> rw [h1] at hx <;>
      refine version_of_map ?_ x hx <;> intro r
    · by_cases hc : (r.id == id && r.version == cur.version) = true
      · rw [if_pos hc]
        exact Or.inr ⟨rfl, rfl⟩
      · rw [if_neg hc]
        exact Or.inl rfl
    · by_cases hc : (r.id == id) = true
      · rw [if_pos hc]
        exact Or.inr ⟨rfl, rfl⟩
      · rw [if_neg hc]
        exact Or.inl rfl
  · intro w rideId s r' w' h
    intro x hx
    rw [(updateRideStatusForTrip_ok_rides h).2] at hx
    refine version_of_map ?_ x hx
    intro r
    by_cases hc : (r.id == rideId) = true
    · rw [if_pos hc]
      exact Or.inr ⟨rfl, rfl⟩
    · rw [if_neg hc]
      exact Or.inl rfl
  · intro w rideId driverId r' w' h
    intro x hx
    rw [acceptRide_ok_rides h] at hx
    refine version_of_map ?_ x hx
    intro r
    by_cases hc : (r.id == rideId) = true
    · rw [if_pos hc]
      exact Or.inr ⟨rfl, rfl⟩
    · rw [if_neg hc]
      exact Or.inl rfl
  · intro w id reason r' w' h
    intro x hx
    rw [cancelRide_ok_rides h] at hx
    refine version_of_map ?_ x hx
    intro r
    by_cases hc : (r.id == id &&
        !(r.status == RideStatus.COMPLETED || r.status == RideStatus.CANCELLED)) = true
    · rw [if_pos hc]
      exact Or.inr ⟨rfl, rfl⟩
    · rw [if_neg hc]
      exact Or.inl rfl
  · intro w rideId tid w' h
    obtain ⟨cur, hfind, harr, hsh⟩ := startTrip_ok_rides h
    intro x hx
    rw [hsh] at hx
    refine version_of_map ?_ x hx
    intro r
    by_cases hc : (r.id == rideId) = true
    · rw [if_pos hc]
      exact Or.inr ⟨rfl, rfl⟩
    · rw [if_neg hc]
      exact Or.inl rfl
  · intro w tripId dk dm poly fb w' h
    obtain ⟨trip, hfind, hsh⟩ := endTrip_ok_rides h
    intro x hx
    rw [hsh] at hx
    refine version_of_map ?_ x hx
    intro r
    by_cases hc : (r.id == trip.rideId) = true
    · rw [if_pos hc]
      exact Or.inr ⟨rfl, rfl⟩
    · rw [if_neg hc]
      exact Or.inl rfl
  · intro w rideId nearby res w' h
    intro x hx
    rcases findDriversForRide_ok_rides h with hsh | hsh <;> rw [hsh] at hx <;>
      obtain ⟨r, hr, rfl⟩ := mem_map_inv hx
    · by_cases hc : (r.id == rideId) = true
      · rw [if_pos hc]
        exact ⟨r, hr, rfl, rfl, Or.inr (Or.inl rfl)⟩
      · rw [if_neg hc]
        exact ⟨r, hr, rfl, rfl, Or.inl rfl⟩
    · by_cases hc : (r.id == rideId) = true
      · rw [if_pos hc]
        exact ⟨r, hr, rfl, rfl, Or.inr (Or.inr rfl)⟩
      · rw [if_neg hc]
        exact ⟨r, hr, rfl, rfl, Or.inl rfl⟩

/-- C5 counterexample: `findDriversForRide` rewrites the ride's status
from `REQUESTED` to `MATCHING` — a write to the ride row — while leaving
`version` at 1, so not every ride write increments the version. -/
theorem findDrivers_version_unchanged_counterexample :
    rideRequested.status = RideStatus.REQUESTED ∧ rideRequested.version = 1 ∧
    findDriversForRide worldRequested 1 [(7, 1)] = .ok ([], worldReqMatching) ∧
    worldReqMatching.rides = [{ rideRequested with status := RideStatus.MATCHING }] ∧
    ({ rideRequested with status := RideStatus.MATCHING } : Ride).version = 1 := by
  decide

/-- Witness for C5: a version-bumping `updateRideStatus` write and a
version-preserving matching status write, both at concrete states. -/
theorem version_discipline_witness :
    VersionDiscipline worldArrived worldStarted ∧
    MatchingStatusWriteOnly worldRequested worldReqMatching :=
  ⟨version_discipline.1 worldArrived 1 RideStatus.IN_PROGRESS none rideStarted
    worldStarted (by decide),
   version_discipline.2.2.2.2.2.2 worldRequested 1 [(7, 1)] [] worldReqMatching (by decide)⟩

/-- C2: a successful `acceptRide(rideId, driverId)` requires the ride to
be `MATCHING` with an online driver `driverId` and a pending offer for
the pair, and atomically assigns the ride (driver set, `DRIVER_ASSIGNED`,
`version + 1`), marks the driver busy, marks the pair's offer accepted
and every other pending offer for the ride cancelled; when the ride is
not `MATCHING` and already carries a driver, the call fails with
Conflict("Ride has already been assigned to another driver"). -/
theorem acceptRide_spec (w : World) (rideId driverId : Nat) :
    (∀ r' w', acceptRide w rideId driverId = .ok (r', w') →
      (∃ ride ∈ w.rides, ride.id = rideId ∧ ride.status = RideStatus.MATCHING ∧
        r' = { ride with driverId := some driverId,
                         status := RideStatus.DRIVER_ASSIGNED,
                         version := ride.version + 1 }) ∧
      (∃ d ∈ w.drivers, d.id = driverId ∧ d.status = DriverStatus.online) ∧
      (∃ o ∈ w.offers, o.rideId = rideId ∧ o.driverId = driverId ∧
        o.status = OfferStatus.pending) ∧
      r'.status = RideStatus.DRIVER_ASSIGNED ∧ r'.driverId = some driverId ∧
      w'.rides = w.rides.map (fun r => if r.id == rideId then
        { r with driverId := some driverId, status := RideStatus.DRIVER_ASSIGNED,
                 version := r.version + 1 } else r) ∧
      w'.drivers = w.drivers.map (fun d => if d.id == driverId then
        { d with status := DriverStatus.busy } else d) ∧
      w'.offers = w.offers.map (fun o =>
        if o.rideId == rideId && o.driverId == driverId then
          { o with status := OfferStatus.accepted }
        else if o.rideId == rideId && o.status == OfferStatus.pending then
          { o with status := OfferStatus.cancelled }
        else o)) ∧
    (∀ ride, ("ride:" ++ toString rideId) ∉ w.locks →
      w.rides.find? (fun r => r.id == rideId) = some ride →
      ride.status ≠ RideStatus.MATCHING → ride.driverId ≠ none →
      acceptRide w rideId driverId =
        .error (.Conflict "Ride has already been assigned to another driver")) := by
  constructor
  · intro r' w' h
    by_cases hlock : ("ride:" ++ toString rideId) ∈ w.locks
    · simp only [acceptRide, if_pos hlock] at h
      exact Except.noConfusion h
    · rcases hfind : w.rides.find? (fun r => r.id == rideId) with _ | ride
      · simp only [acceptRide, if_neg hlock, hfind] at h
        exact Except.noConfusion h
      · cases hst : (ride.status == RideStatus.MATCHING) with
        | false =>
          simp only [acceptRide, if_neg hlock, hfind, hst, if_false] at h
          cases hiso : ride.driverId.isSome <;> simp only [hiso, if_true, if_false] at h <;>
            exact Except.noConfusion h
        | true =>
          rcases hdrv : w.drivers.find? (fun d => d.id == driverId &&
              d.status == DriverStatus.online) with _ | driver
          · simp only [acceptRide, if_neg hlock, hfind, hst, if_true, hdrv] at h
            exact Except.noConfusion h
          · cases hoff : (w.offers.any fun o => o.rideId == rideId && o.driverId == driverId &&
                o.status == OfferStatus.pending) with
            | false =>
              simp only [acceptRide, if_neg hlock, hfind, hst, if_true, hdrv, hoff,
                if_false] at h
              exact Except.noConfusion h
            | true =>
              simp only [acceptRide, if_neg hlock, hfind, hst, if_true, hdrv, hoff,
                Except.ok.injEq, Prod.mk.injEq] at h
              obtain ⟨h1, h2⟩ := h
              subst h2
              have hridemem := List.mem_of_find?_eq_some hfind
              have hrideid : ride.id = rideId := by simpa using List.find?_some hfind
              have hridest : ride.status = RideStatus.MATCHING := by simpa using hst
              have hdrvmem := List.mem_of_find?_eq_some hdrv
              have hdrvp := List.find?_some hdrv
              simp only [Bool.and_eq_true, beq_iff_eq] at hdrvp
              obtain ⟨ho, homem, hop⟩ := List.any_eq_true.mp hoff
              simp only [Bool.and_eq_true, beq_iff_eq] at hop
              refine ⟨⟨ride, hridemem, hrideid, hridest, h1.symm⟩,
                      ⟨driver, hdrvmem, hdrvp.1, hdrvp.2⟩,
                      ⟨ho, homem, hop.1.1, hop.1.2, hop.2⟩,
                      by rw [← h1], by rw [← h1], rfl, rfl, rfl⟩
  · intro ride hlock hfind hst hdrv
    have hstb : (ride.status == RideStatus.MATCHING) = false := by
      simpa using hst
    have hisome : ride.driverId.isSome = true := Option.isSome_iff_ne_none.mpr hdrv
    simp only [acceptRide, if_neg hlock, hfind, hstb, Bool.false_eq_true, if_false,
      hisome, if_true]

/-- Witness for C2: driver 2 accepts the matching ride (driver 3's
pending offer is cancelled), and accepting an already-assigned ride
fails with the Conflict error. -/
theorem acceptRide_spec_witness :
    ((∃ ride ∈ worldMatching.rides, ride.id = 1 ∧ ride.status = RideStatus.MATCHING ∧
       rideAssigned = { ride with driverId := some 2,
                                  status := RideStatus.DRIVER_ASSIGNED,
                                  version := ride.version + 1 }) ∧
     (∃ d ∈ worldMatching.drivers, d.id = 2 ∧ d.status = DriverStatus.online) ∧
     (∃ o ∈ worldMatching.offers, o.rideId = 1 ∧ o.driverId = 2 ∧
       o.status = OfferStatus.pending) ∧
     rideAssigned.status = RideStatus.DRIVER_ASSIGNED ∧ rideAssigned.driverId = some 2 ∧
     worldAssigned.rides = worldMatching.rides.map (fun r => if r.id == 1 then
       { r with driverId := some 2, status := RideStatus.DRIVER_ASSIGNED,
                version := r.version + 1 } else r) ∧
     worldAssigned.drivers = worldMatching.drivers.map (fun d => if d.id == 2 then
       { d with status := DriverStatus.busy } else d) ∧
     worldAssigned.offers = worldMatching.offers.map (fun o =>
       if o.rideId == 1 && o.driverId == 2 then { o with status := OfferStatus.accepted }
       else if o.rideId == 1 && o.status == OfferStatus.pending then
         { o with status := OfferStatus.cancelled }
       else o)) ∧
    acceptRide worldTaken 1 2 =
      .error (.Conflict "Ride has already been assigned to another driver") :=
  ⟨(acceptRide_spec worldMatching 1 2).1 rideAssigned worldAssigned (by decide),
   (acceptRide_spec worldTaken 1 2).2 rideTaken (by decide) (by decide) (by decide)
     (by decide)⟩

/-- The most recent idempotency-cache entry is what a lookup returns. -/
theorem checkIdempotencyKey_cons {w : PayWorld} {key : String} {p : Payment}
    {rest : List (String × Payment)} (hc : w.idemCache = (key, p) :: rest) :
    checkIdempotencyKey w key = some p := by
  simp [checkIdempotencyKey, hc]

/-- The charging core caches its result under the idempotency key, issues
exactly one PSP charge, and leaves the lock store unchanged. -/
theorem processPaymentCore_ok {w : PayWorld} {tripId : Nat} {method key : String} {b : Bool}
    {p : Payment} {w' : PayWorld} (h : processPaymentCore w tripId method key b = .ok (p, w')) :
    w'.idemCache = (key, p) :: w.idemCache ∧ w'.pspCalls = w.pspCalls + 1 ∧
    w'.redisLocks = w.redisLocks := by
  rcases hfind : w.trips.find? (fun t => t.id == tripId) with _ | trip
  · simp only [processPaymentCore, hfind] at h
    exact Except.noConfusion h
  · cases hst : (trip.status == "COMPLETED") with
    | false =>
      simp only [processPaymentCore, hfind, hst, if_false] at h
      exact Except.noConfusion h
    | true =>
      rcases hpsp : runPsp method w.now (w.nextId + 1) w.pspOracle with _ | pr
      · simp only [processPaymentCore, hfind, hst, if_true, hpsp] at h
        exact Except.noConfusion h
      · obtain ⟨psp, orc⟩ := pr
        rcases hfp : (if b then
            w.payments.map (fun q => if q.tripId == tripId then
              { q with status := "processing", idempotencyKey := some key } else q)
          else
            w.payments ++ [⟨w.nextId, tripId, trip.totalFare, method, "processing",
                            none, none, some key, none⟩]).map (fun q => if q.tripId == tripId then
            { q with status := psp.status, pspReference := psp.reference,
                     pspResponse := some psp,
                     completedAt := if psp.status == "completed" then some w.now else none }
            else q) |>.find? (fun q => q.tripId == tripId) with _ | payment
        · simp only [processPaymentCore, hfind, hst, if_true, hpsp, hfp] at h
          exact Except.noConfusion h
        · simp only [processPaymentCore, hfind, hst, if_true, hpsp, hfp, Except.ok.injEq,
            Prod.mk.injEq] at h
          obtain ⟨h1, h2⟩ := h
          subst h2
          exact ⟨by rw [h1], rfl, rfl⟩

/-- C1: `processPayment` is idempotent in the idempotency key — once a
call has returned a Payment, calling again with the same trip, method and
key returns the very same Payment (same id, status, psp reference,
completed_at: the whole row) and the very same state, so no additional
PSP charge is issued; across both calls the PSP is invoked at most once
(`pspCalls` grows by at most 1 in the first call and not at all in the
second). -/
theorem processPayment_idempotent (w : PayWorld) (tripId : Nat) (method key : String)
    (p : Payment) (w' : PayWorld)
    (h : processPayment w tripId method key = .ok (p, w')) :
    processPayment w' tripId method key = .ok (p, w') ∧ w'.pspCalls ≤ w.pspCalls + 1 := by
  rcases hchk : checkIdempotencyKey w key with _ | q
  · by_cases hlock : lockKeyFor tripId ∈ w.redisLocks
    · simp only [processPayment, hchk, if_pos hlock] at h
      exact Except.noConfusion h
    · simp only [processPayment, hchk, if_neg hlock] at h
      rcases hfindp : w.payments.find? (fun q => q.tripId == tripId) with _ | ex
      · simp only [processPaymentTx, hfindp] at h
        obtain ⟨hcache, hcalls, hlk⟩ := processPaymentCore_ok h
        have hchk2 : checkIdempotencyKey w' key = some p := checkIdempotencyKey_cons hcache
        refine ⟨?_, by rw [hcalls]⟩
        simp only [processPayment, hchk2]
      · cases hexst : (ex.status == "completed") with
        | true =>
          simp only [processPaymentTx, hfindp, hexst, if_true, Except.ok.injEq,
            Prod.mk.injEq] at h
          obtain ⟨h1, h2⟩ := h
          subst h1
          subst h2
          constructor
          · simp only [processPayment, hchk, if_neg hlock, processPaymentTx, hfindp, hexst,
              if_true]
          · exact Nat.le_succ _
        | false =>
          simp only [processPaymentTx, hfindp, hexst, if_false] at h
          obtain ⟨hcache, hcalls, hlk⟩ := processPaymentCore_ok h
          have hchk2 : checkIdempotencyKey w' key = some p := checkIdempotencyKey_cons hcache
          refine ⟨?_, by rw [hcalls]⟩
          simp only [processPayment, hchk2]
  · simp only [processPayment, hchk, Except.ok.injEq, Prod.mk.injEq] at h
    obtain ⟨h1, h2⟩ := h
    subst h1
    subst h2
    constructor
    · simp only [processPayment, hchk]
    · exact Nat.le_succ _

/-- Witness for C1: a cash payment processed once; the repeat call with
key K1 returns the identical Payment row and state. -/
theorem processPayment_idempotent_witness :
    processPayment payWorld1 1 "cash" "K1" = .ok (payResult1, payWorld1) ∧
    payWorld1.pspCalls ≤ payWorld0.pspCalls + 1 :=
  processPayment_idempotent payWorld0 1 "cash" "K1" payResult1 payWorld1 (by decide)

/-- C8: when the per-trip payment lock is already held, `processPayment`
re-checks the idempotency cache (after its 100 ms sleep): a cached result
is returned verbatim with the state untouched, and otherwise the call
fails with Conflict("Payment is being processed. Please try again.")
without writing any payment state (the error carries no state change in
this embedding: the transaction never starts). -/
theorem processPayment_lock_behavior (w : PayWorld) (tripId : Nat) (method key : String)
    (hlock : lockKeyFor tripId ∈ w.redisLocks) :
    (∀ p, checkIdempotencyKey w key = some p →
      processPayment w tripId method key = .ok (p, w)) ∧
    (checkIdempotencyKey w key = none →
      processPayment w tripId method key =
        .error (.Conflict "Payment is being processed. Please try again.")) := by
  constructor
  · intro p hp
    simp only [processPayment, hp]
  · intro hn
    simp only [processPayment, hn, if_pos hlock]

/-- Witness for C8: with the lock held and no cached result, the call
fails with the Conflict error. -/
theorem processPayment_lock_behavior_witness :
    ("payment_lock:1" : String) = lockKeyFor 1 ∧
    checkIdempotencyKey payWorldLocked "K2" = none ∧
    processPayment payWorldLocked 1 "card" "K2" =
      .error (.Conflict "Payment is being processed. Please try again.") :=
  ⟨by decide, by decide,
   (processPayment_lock_behavior payWorldLocked 1 "card" "K2" (by decide)).2 (by decide)⟩

end RideHailing
